import Mathlib

/-!
Shallow embedding of `OrigamiPatterns/Pattern.py` (class `Pattern`): the colour
codec `get_color_string`, the dash arithmetic and style table of
`create_styles_dict`, the assembly logic of `effect`, and the unit-conversion
fallback chain of `calc_unit_factor`.

Modelling conventions:
* Python strings are modelled as `List Char` (except opaque unit strings, which
  stay `String`); Python floats are modelled as exact rationals `ℚ`;
  Python ints are `Int`/`Nat`.
* The two environment-dependent branches of `get_color_string` (Python 2 has
  `long`, Python 3 raises `NameError` and falls into the `except` branch) are
  selected by an explicit `hasLong : Bool` argument.
* `Path.py` is not part of the sources given; the pieces of it that `effect`
  uses (the `Path` constructor, `generate_separated_paths`, and
  `draw_paths_recursively`) are modelled from the spec, as marked below.
-/

namespace Origami

/-- One lowercase hexadecimal digit, as produced by Python's `hex()`. -/
def hexDigitChar : Nat → Char
  | 0 => '0' | 1 => '1' | 2 => '2' | 3 => '3' | 4 => '4' | 5 => '5' | 6 => '6' | 7 => '7'
  | 8 => '8' | 9 => '9' | 10 => 'a' | 11 => 'b' | 12 => 'c' | 13 => 'd' | 14 => 'e'
  | 15 => 'f' | _ => '?'

/-- Fuel-driven big-endian hexadecimal digit list.  With enough fuel,
`hexDigitsAux fuel n` is the digit part of Python's `hex(n)` for `n ≥ 0`
(lowercase, no leading zeros, `"0"` for zero). -/
def hexDigitsAux : Nat → Nat → List Char
  | 0, _ => []
  | fuel + 1, n =>
    if n < 16 then [hexDigitChar n]
    else hexDigitsAux fuel (n / 16) ++ [hexDigitChar (n % 16)]

/-- The digit part of Python's `hex(n)` for a non-negative integer `n`
(fuel `n + 1` always suffices, since `n` has at most `n + 1` digits). -/
def hexDigits (n : Nat) : List Char := hexDigitsAux (n + 1) n

/-- Python's `s.rjust(6, '0')`: left-pad with `'0'` to length 6
(no-op on longer strings). -/
def rjust6 (l : List Char) : List Char := List.replicate (6 - l.length) '0' ++ l

/-- `Pattern.get_color_string` (Pattern.py lines 438-456).  `hasLong` selects
the `try` branch (Python 2, where `long` exists: negatives are masked with
`0xFFFFFFFF`, and `hex(...)[2:-3]` strips `0x`, the trailing `L` and the two
lowest digits) or the `except` branch (Python 3: no masking, `hex(...)[2:-2]`
strips `0x` and the two lowest characters).  Python's `c & 0xFFFFFFFF` on a
negative int equals `c mod 2^32`, written here with `Int`'s Euclidean `%`.
The `verbose` debug printing is omitted (pure output only). -/
def get_color_string (hasLong : Bool) (c : Int) : List Char :=
  if hasLong then
    let n : Nat := if c < 0 then (c % 4294967296).toNat else c.toNat
    let hexColor : List Char := (hexDigits n).dropLast.dropLast
    '#' :: (rjust6 hexColor).map Char.toUpper
  else
    let s : List Char := if c < 0 then 'x' :: hexDigits (-c).toNat else hexDigits c.toNat
    let hexColor : List Char := s.dropLast.dropLast
    '#' :: (rjust6 hexColor).map Char.toUpper

/-- The colour conversion exactly as the specification words it: mask the value
to 32 unsigned bits, drop the lowest 8 bits, format as hexadecimal, left-pad
with `0` to 6 digits, uppercase, prefix `#`.  Kept separate from
`get_color_string` so the code can be compared against it. -/
def color_spec (c : Int) : List Char :=
  '#' :: (rjust6 (hexDigits ((c % 4294967296).toNat / 256))).map Char.toUpper

/-- Decides membership in `[0-9A-F]`. -/
def isUpperHexDigit (ch : Char) : Bool :=
  ('0' ≤ ch && ch ≤ '9') || ('A' ≤ ch && ch ≤ 'F')

/-- The dash arithmetic of `create_styles_dict` (Pattern.py lines 405-408 and
the analogous blocks for the other classes):
`dash = len * duty * unit_factor`, `gap = abs(dash - len * unit_factor)`. -/
def dash_gap (len duty unit_factor : ℚ) : ℚ × ℚ :=
  (len * duty * unit_factor, |len * duty * unit_factor - len * unit_factor|)

/-- The raw per-stroke-class options registered in `Pattern.__init__`
(Pattern.py lines 100-308) that `create_styles_dict` reads.  Colours are kept
as integers (the string-to-int parse is part of `get_color_string`); widths,
dash lengths and duty cycles as exact rationals.  The vertex class has no dash
options, only a radius (unused by the style compiler). -/
structure POptions where
  mountain_stroke_color : Int
  mountain_stroke_width : ℚ
  mountain_dashes_len : ℚ
  mountain_dashes_duty : ℚ
  mountain_dashes_bool : Bool
  mountain_bool : Bool
  valley_stroke_color : Int
  valley_stroke_width : ℚ
  valley_dashes_len : ℚ
  valley_dashes_duty : ℚ
  valley_dashes_bool : Bool
  valley_bool : Bool
  edge_stroke_color : Int
  edge_stroke_width : ℚ
  edge_dashes_len : ℚ
  edge_dashes_duty : ℚ
  edge_dashes_bool : Bool
  edge_bool : Bool
  edge_single_path : Bool
  universal_stroke_color : Int
  universal_stroke_width : ℚ
  universal_dashes_len : ℚ
  universal_dashes_duty : ℚ
  universal_dashes_bool : Bool
  universal_bool : Bool
  semicrease_stroke_color : Int
  semicrease_stroke_width : ℚ
  semicrease_dashes_len : ℚ
  semicrease_dashes_duty : ℚ
  semicrease_dashes_bool : Bool
  semicrease_bool : Bool
  cut_stroke_color : Int
  cut_stroke_width : ℚ
  cut_dashes_len : ℚ
  cut_dashes_duty : ℚ
  cut_dashes_bool : Bool
  cut_bool : Bool
  vertex_stroke_color : Int
  vertex_stroke_width : ℚ
  vertex_radius : ℚ
  vertex_bool : Bool
deriving DecidableEq

/-- One value of `styles_dict`.  A Python dict with the fixed keys `draw`,
`stroke`, `fill`, `stroke-width` and the optional key `stroke-dasharray` is
modelled as a record with an `Option` field for the dash pair (the Python code
formats the pair into a `"dash,gap"` string; the pair itself is kept here). -/
structure PStyle where
  draw : Bool
  stroke : List Char
  fill : List Char
  strokeWidth : ℚ
  strokeDasharray : Option (ℚ × ℚ)
deriving DecidableEq

/-- The constant string `"none"`. -/
def noneStr : List Char := ['n', 'o', 'n', 'e']

/-- `Pattern.create_styles_dict` (Pattern.py lines 363-436).  `unit_factor` is
the value that line 366 obtains from `calc_unit_factor` (modelled separately);
it is computed once and used for every width and dash value.  The dict literal
of lines 430-436 is modelled as an association list in the same key order. -/
def create_styles_dict (hasLong : Bool) (o : POptions) (unit_factor : ℚ) :
    List (Char × PStyle) :=
  let mountain_style : PStyle :=
    { draw := o.mountain_bool
      stroke := get_color_string hasLong o.mountain_stroke_color
      fill := noneStr
      strokeWidth := o.mountain_stroke_width * unit_factor
      strokeDasharray :=
        if o.mountain_dashes_bool then
          some (dash_gap o.mountain_dashes_len o.mountain_dashes_duty unit_factor)
        else none }
  let valley_style : PStyle :=
    { draw := o.valley_bool
      stroke := get_color_string hasLong o.valley_stroke_color
      fill := noneStr
      strokeWidth := o.valley_stroke_width * unit_factor
      strokeDasharray :=
        if o.valley_dashes_bool then
          some (dash_gap o.valley_dashes_len o.valley_dashes_duty unit_factor)
        else none }
  let universal_style : PStyle :=
    { draw := o.universal_bool
      stroke := get_color_string hasLong o.universal_stroke_color
      fill := noneStr
      strokeWidth := o.universal_stroke_width * unit_factor
      strokeDasharray :=
        if o.universal_dashes_bool then
          some (dash_gap o.universal_dashes_len o.universal_dashes_duty unit_factor)
        else none }
  let semicrease_style : PStyle :=
    { draw := o.semicrease_bool
      stroke := get_color_string hasLong o.semicrease_stroke_color
      fill := noneStr
      strokeWidth := o.semicrease_stroke_width * unit_factor
      strokeDasharray :=
        if o.semicrease_dashes_bool then
          some (dash_gap o.semicrease_dashes_len o.semicrease_dashes_duty unit_factor)
        else none }
  let cut_style : PStyle :=
    { draw := o.cut_bool
      stroke := get_color_string hasLong o.cut_stroke_color
      fill := noneStr
      strokeWidth := o.cut_stroke_width * unit_factor
      strokeDasharray :=
        if o.cut_dashes_bool then
          some (dash_gap o.cut_dashes_len o.cut_dashes_duty unit_factor)
        else none }
  let edge_style : PStyle :=
    { draw := o.edge_bool
      stroke := get_color_string hasLong o.edge_stroke_color
      fill := noneStr
      strokeWidth := o.edge_stroke_width * unit_factor
      strokeDasharray :=
        if o.edge_dashes_bool then
          some (dash_gap o.edge_dashes_len o.edge_dashes_duty unit_factor)
        else none }
  let vertex_style : PStyle :=
    { draw := o.vertex_bool
      stroke := get_color_string hasLong o.vertex_stroke_color
      fill := noneStr
      strokeWidth := o.vertex_stroke_width * unit_factor
      strokeDasharray := none }
  [('m', mountain_style), ('v', valley_style), ('u', universal_style),
   ('s', semicrease_style), ('c', cut_style), ('e', edge_style), ('p', vertex_style)]

/-- The seven stroke classes, in the key order of `styles_dict`. -/
inductive SClass where
  | m | v | u | s | c | e | p
deriving DecidableEq

instance : Fintype SClass :=
  ⟨⟨[SClass.m, SClass.v, SClass.u, SClass.s, SClass.c, SClass.e, SClass.p], by decide⟩,
   fun x => by cases x <;> decide⟩

/-- The dict key used for each stroke class. -/
def classKey : SClass → Char
  | SClass.m => 'm' | SClass.v => 'v' | SClass.u => 'u' | SClass.s => 's'
  | SClass.c => 'c' | SClass.e => 'e' | SClass.p => 'p'

/-- The raw stroke configuration of one class: draw flag, colour, width, dash
length, dash duty, dashed flag (and the vertex radius, so that the vertex
class's whole option set is covered; classes without such an option get `0`
or `false`). -/
structure RawCfg where
  draw : Bool
  color : Int
  width : ℚ
  dashesLen : ℚ
  dashesDuty : ℚ
  dashesBool : Bool
  radius : ℚ
deriving DecidableEq

/-- Projects the option record onto one class's raw stroke configuration. -/
def classConfig (o : POptions) : SClass → RawCfg
  | SClass.m => ⟨o.mountain_bool, o.mountain_stroke_color, o.mountain_stroke_width,
      o.mountain_dashes_len, o.mountain_dashes_duty, o.mountain_dashes_bool, 0⟩
  | SClass.v => ⟨o.valley_bool, o.valley_stroke_color, o.valley_stroke_width,
      o.valley_dashes_len, o.valley_dashes_duty, o.valley_dashes_bool, 0⟩
  | SClass.u => ⟨o.universal_bool, o.universal_stroke_color, o.universal_stroke_width,
      o.universal_dashes_len, o.universal_dashes_duty, o.universal_dashes_bool, 0⟩
  | SClass.s => ⟨o.semicrease_bool, o.semicrease_stroke_color, o.semicrease_stroke_width,
      o.semicrease_dashes_len, o.semicrease_dashes_duty, o.semicrease_dashes_bool, 0⟩
  | SClass.c => ⟨o.cut_bool, o.cut_stroke_color, o.cut_stroke_width,
      o.cut_dashes_len, o.cut_dashes_duty, o.cut_dashes_bool, 0⟩
  | SClass.e => ⟨o.edge_bool, o.edge_stroke_color, o.edge_stroke_width,
      o.edge_dashes_len, o.edge_dashes_duty, o.edge_dashes_bool, 0⟩
  | SClass.p => ⟨o.vertex_bool, o.vertex_stroke_color, o.vertex_stroke_width,
      0, 0, false, o.vertex_radius⟩

/-- A 2-D point. -/
abbrev Pt := ℚ × ℚ

/-- Modelled from the spec: the `Path` instances of the missing `Path.py` and
the nested lists that `path_tree` is built from.  A `path` node is one `Path`
(ordered point sequence, its stroke-class character, closed flag); a `list`
node is a Python list of subtrees (a group when rendered). -/
inductive PTree where
  | path (points : List Pt) (style : Char) (closed : Bool)
  | list (children : List PTree)

/-- What one run of `Pattern.effect` hands to the rendering step: whether a
fresh enclosing `<g>` element was created and attached to the current layer
(line 334), and the tree argument passed to `draw_paths_recursively`. -/
structure EffectOut where
  wrapped : Bool
  drawn : PTree

/-- The assembly logic of `Pattern.effect` (Pattern.py lines 333-345).
`sep` stands for `Path.generate_separated_paths(edge_points, 'e', closed=True)`
from the missing `Path.py` (modelled from the spec: the split policy is owned
by that collaborator, `effect` only appends whatever list it returns).  The
single-path branch builds `Path(self.edge_points, 'e', closed=True)`.  A
non-list `path_tree` with non-empty `edge_points` makes
`self.path_tree + [edges]` raise a `TypeError`, modelled with `Except.error`. -/
def effect (sep : List Pt → List PTree) (path_tree : PTree) (edge_points : List Pt)
    (edge_single_path : Bool) : Except String EffectOut :=
  let wrapped : Bool :=
    match path_tree with
    | PTree.list ch => ch.length != 1
    | PTree.path _ _ _ => false
  if edge_points.isEmpty then Except.ok ⟨wrapped, path_tree⟩
  else
    match path_tree with
    | PTree.list ch =>
      if edge_single_path then
        Except.ok ⟨wrapped, PTree.list (ch ++ [PTree.path edge_points 'e' true])⟩
      else
        Except.ok ⟨wrapped, PTree.list (ch ++ sep edge_points)⟩
    | PTree.path _ _ _ => Except.error "TypeError"

/-- The wrapping condition of Pattern.py line 333, as a predicate on the tree:
`type(self.path_tree) == list and len(self.path_tree) != 1`. -/
def wrapFlag : PTree → Bool
  | PTree.list ch => ch.length != 1
  | PTree.path _ _ _ => false

mutual

/-- Modelled from the spec: `Path.draw_paths_recursively` of the missing
`Path.py` — the render driver visits the tree depth-first, pre-order, and
emits one drawable primitive per leaf.  Only the emitted leaf sequence is
modelled; creating nested containers is the document API's side. -/
def drawnLeaves : PTree → List (List Pt × Char × Bool)
  | PTree.path pts st cl => [(pts, st, cl)]
  | PTree.list ch => drawnLeavesList ch

/-- Leaf emission for a list of subtrees, in order. -/
def drawnLeavesList : List PTree → List (List Pt × Char × Bool)
  | [] => []
  | t :: ts => drawnLeaves t ++ drawnLeavesList ts

end

/-- The Python exception classes that `calc_unit_factor` distinguishes:
its second fallback level catches `AttributeError` only. -/
inductive PyErr where
  | attributeError
  | typeError
  | otherError
deriving DecidableEq

/-- The argument built at each call site of `calc_unit_factor`:
`str(1.0) + self.options.units`. -/
def unitArg (units : String) : String := "1.0" ++ units

/-- `Pattern.calc_unit_factor` (Pattern.py lines 473-488).  The three
host-supplied conversion callables (`self.svg.unittouu`, `inkex.unittouu`,
`self.unittouu`) are parameters returning `Except PyErr ℚ` (`error` = the call
raised).  The outer `try` catches every exception; the inner `except` clause
catches only `AttributeError`, so any other failure of the second path
propagates. -/
def calc_unit_factor (svgU inkexU selfU : String → Except PyErr ℚ) (units : String) :
    Except PyErr ℚ :=
  match svgU (unitArg units) with
  | Except.ok v => Except.ok v
  | Except.error _ =>
    match inkexU (unitArg units) with
    | Except.ok v => Except.ok v
    | Except.error e =>
      if e = PyErr.attributeError then selfU (unitArg units) else Except.error e

/-! ## Lemmas about the hexadecimal digit list -/

theorem hexDigitsAux_congr :
    ∀ n f g : Nat, n < f → n < g → hexDigitsAux f n = hexDigitsAux g n := by
  intro n
  induction n using Nat.strong_induction_on with
  | _ n ih =>
    intro f g hf hg
    obtain ⟨f', rfl⟩ : ∃ f', f = f' + 1 := ⟨f - 1, by omega⟩
    obtain ⟨g', rfl⟩ : ∃ g', g = g' + 1 := ⟨g - 1, by omega⟩
    simp only [hexDigitsAux]
    by_cases h16 : n < 16
    · simp [h16]
    · have hdiv : n / 16 < n := Nat.div_lt_self (by omega) (by norm_num)
      rw [if_neg h16, if_neg h16, ih (n / 16) hdiv f' g' (by omega) (by omega)]

theorem hexDigitsAux_succ (fuel n : Nat) :
    hexDigitsAux (fuel + 1) n =
      if n < 16 then [hexDigitChar n]
      else hexDigitsAux fuel (n / 16) ++ [hexDigitChar (n % 16)] := rfl

theorem hexDigits_lt {n : Nat} (h : n < 16) : hexDigits n = [hexDigitChar n] := by
  show hexDigitsAux (n + 1) n = _
  rw [hexDigitsAux_succ, if_pos h]

theorem hexDigits_ge {n : Nat} (h : 16 ≤ n) :
    hexDigits n = hexDigits (n / 16) ++ [hexDigitChar (n % 16)] := by
  have hdiv : n / 16 < n := Nat.div_lt_self (by omega) (by norm_num)
  show hexDigitsAux (n + 1) n = hexDigitsAux (n / 16 + 1) (n / 16) ++ [hexDigitChar (n % 16)]
  rw [hexDigitsAux_succ, if_neg (by omega : ¬ n < 16),
    hexDigitsAux_congr (n / 16) n (n / 16 + 1) (by omega) (by omega)]

theorem hexDigits_shape (n : Nat) :
    ∀ ch ∈ hexDigits n, ∃ k, k < 16 ∧ ch = hexDigitChar k := by
  induction n using Nat.strong_induction_on with
  | _ n ih =>
    by_cases h : n < 16
    · rw [hexDigits_lt h]
      intro ch hch
      rw [List.mem_singleton] at hch
      exact ⟨n, h, hch⟩
    · rw [hexDigits_ge (by omega)]
      intro ch hch
      rw [List.mem_append] at hch
      rcases hch with hch | hch
      · exact ih (n / 16) (Nat.div_lt_self (by omega) (by norm_num)) ch hch
      · rw [List.mem_singleton] at hch
        exact ⟨n % 16, Nat.mod_lt _ (by norm_num), hch⟩

theorem hexDigits_length :
    ∀ k : Nat, 1 ≤ k → ∀ n : Nat, n < 16 ^ k → (hexDigits n).length ≤ k := by
  intro k
  induction k with
  | zero => omega
  | succ k ih =>
    intro _ n hn
    by_cases h : n < 16
    · rw [hexDigits_lt h]; simp
    · rw [hexDigits_ge (by omega), List.length_append]
      have hk : 1 ≤ k := by
        rcases Nat.eq_zero_or_pos k with rfl | hpos
        · norm_num at hn; omega
        · exact hpos
      have hdiv : n / 16 < 16 ^ k := by
        rw [Nat.div_lt_iff_lt_mul (by norm_num)]
        calc n < 16 ^ (k + 1) := hn
          _ = 16 ^ k * 16 := by ring
      have := ih hk (n / 16) hdiv
      simp only [List.length_singleton]
      omega

theorem dropLast_snoc (l : List Char) (a : Char) : (l ++ [a]).dropLast = l := by
  simp

theorem dropLast2_small {l : List Char} (h : l.length ≤ 2) : l.dropLast.dropLast = [] := by
  have h1 : l.dropLast.dropLast.length = 0 := by
    simp only [List.length_dropLast]
    omega
  exact List.eq_nil_of_length_eq_zero h1

/-- Dropping the two lowest hexadecimal digits (after zero-padding to six)
is the same as dividing the value by 256 first. -/
theorem rjust6_drop (m : Nat) :
    rjust6 ((hexDigits m).dropLast.dropLast) = rjust6 (hexDigits (m / 256)) := by
  by_cases h : m < 256
  · have hlen : (hexDigits m).length ≤ 2 :=
      hexDigits_length 2 (by norm_num) m (by norm_num; omega)
    rw [dropLast2_small hlen, Nat.div_eq_of_lt h, hexDigits_lt (by norm_num : (0:Nat) < 16)]
    decide
  · have h16 : 16 ≤ m := by omega
    have h16' : 16 ≤ m / 16 := by
      rw [Nat.le_div_iff_mul_le (by norm_num)]; omega
    have h256 : m / 16 / 16 = m / 256 := by
      rw [Nat.div_div_eq_div_mul]
    rw [hexDigits_ge h16, hexDigits_ge h16', h256, dropLast_snoc, dropLast_snoc]

theorem rjust6_length {l : List Char} (h : l.length ≤ 6) : (rjust6 l).length = 6 := by
  simp only [rjust6, List.length_append, List.length_replicate]
  omega

theorem upperHex_pad : isUpperHexDigit (Char.toUpper '0') = true := by decide

theorem upperHex_digit : ∀ k : Nat, k < 16 →
    isUpperHexDigit (Char.toUpper (hexDigitChar k)) = true := by decide

/-! ## Claim C2 -/

/-- Claim C2, counterexample: `get_color_string` does not realise the claimed
mask-and-shift formula on every integer.  In the branch with `long`
(Python 2), the positive out-of-range value `2^32` is not masked and yields
the 8-character string `#1000000`; in the `int` branch (Python 3), the
negative value `-1` is not masked and yields `#000000` instead of `#FFFFFF`. -/
theorem get_color_string_counterexample :
    get_color_string true 4294967296 ≠ color_spec 4294967296
  ∧ (get_color_string true 4294967296).length ≠ 7
  ∧ get_color_string false (-1) ≠ color_spec (-1) := by
  refine ⟨by decide, by decide, by decide⟩

/-- Claim C2, amended: for every integer `c < 2^32` (negatives of any size
included — Python's `c & 0xFFFFFFFF` masks them to 32 bits), the `long`-capable
branch of `get_color_string` returns exactly the specified string: `#` followed
by the uppercase, zero-left-padded 6-digit hexadecimal representation of
`(c mod 2^32) >> 8`; that string has 7 characters and matches `#[0-9A-F]{6}`.
Non-negative inputs in range give the same result in the `int` branch. -/
theorem get_color_string_spec (c : Int) (h : c < 4294967296) :
    get_color_string true c = color_spec c
  ∧ (get_color_string true c).length = 7
  ∧ (∀ ch ∈ (get_color_string true c).tail, isUpperHexDigit ch = true)
  ∧ (0 ≤ c → get_color_string false c = get_color_string true c) := by
  have hn : (if c < 0 then (c % 4294967296).toNat else c.toNat)
      = (c % 4294967296).toNat := by
    split
    · rfl
    · rename_i hc
      rw [Int.emod_eq_of_lt (by omega) (by omega)]
  have hmain : get_color_string true c = color_spec c := by
    show '#' :: (rjust6 ((hexDigits
        (if c < 0 then (c % 4294967296).toNat else c.toNat)).dropLast.dropLast)).map Char.toUpper
      = color_spec c
    rw [hn, rjust6_drop]
    rfl
  have hm : (c % 4294967296).toNat / 256 < 16 ^ 6 := by
    have h0 : (0:Int) ≤ c % 4294967296 := Int.emod_nonneg c (by norm_num)
    have h1 : c % 4294967296 < 4294967296 := Int.emod_lt_of_pos c (by norm_num)
    have h2 : (c % 4294967296).toNat < 4294967296 := by omega
    omega
  have hlen : (hexDigits ((c % 4294967296).toNat / 256)).length ≤ 6 :=
    hexDigits_length 6 (by norm_num) _ hm
  refine ⟨hmain, ?_, ?_, ?_⟩
  · rw [hmain]
    simp only [color_spec, List.length_cons, List.length_map]
    rw [rjust6_length hlen]
  · rw [hmain]
    simp only [color_spec, List.tail_cons]
    intro ch hch
    rw [List.mem_map] at hch
    obtain ⟨ch', hch', rfl⟩ := hch
    rw [rjust6, List.mem_append] at hch'
    rcases hch' with hch' | hch'
    · rw [List.eq_of_mem_replicate hch']
      exact upperHex_pad
    · obtain ⟨k, hk, rfl⟩ := hexDigits_shape _ ch' hch'
      exact upperHex_digit k hk
  · intro h0
    have hcneg : ¬ c < 0 := by omega
    show '#' :: (rjust6 ((if c < 0 then 'x' :: hexDigits (-c).toNat
          else hexDigits c.toNat).dropLast.dropLast)).map Char.toUpper
      = '#' :: (rjust6 ((hexDigits
          (if c < 0 then (c % 4294967296).toNat else c.toNat)).dropLast.dropLast)).map Char.toUpper
    rw [if_neg hcneg, if_neg hcneg]

/-- Claim C2, witness: the spec's own example — `4278190335` (`0xFF0000FF`)
is in range and decodes to `#FF0000`. -/
theorem get_color_string_spec_witness :
    (4278190335 : Int) < 4294967296
  ∧ get_color_string true 4278190335 = color_spec 4278190335
  ∧ get_color_string true 4278190335 = ['#', 'F', 'F', '0', '0', '0', '0'] :=
  ⟨by decide, (get_color_string_spec 4278190335 (by decide)).1, by decide⟩

/-! ## Claims C4 and C5: dash arithmetic -/

/-- Claim C4, counterexample: for duty cycle `D = 3` (outside `[0,1]`),
cycle length `L = 1` and factor `F = 1`, the computed gap is `2` — twice the
whole scaled cycle length `L·F = 1`, so not "zero or near-zero". -/
theorem dash_gap_counterexample :
    (dash_gap 1 3 1).2 = 2 ∧ (1:ℚ) < (dash_gap 1 3 1).2 := by
  constructor <;> norm_num [dash_gap]

/-- Claim C4, amended: inputs with a duty cycle outside `[0,1]` or a zero
cycle length are accepted (the computation is total), and the gap equals
`L·F·|D−1|`: it is `0` exactly when the cycle length is zero (or `D = 1`),
but for `D > 1` it grows linearly with `D − 1` instead of staying near zero. -/
theorem dash_gap_degenerate (L D F : ℚ) (hL : 0 ≤ L) (hF : 0 ≤ F) :
    (dash_gap L D F).2 = L * F * |D - 1| ∧ (L = 0 → dash_gap L D F = (0, 0)) := by
  constructor
  · show |L * D * F - L * F| = L * F * |D - 1|
    have h1 : L * D * F - L * F = (L * F) * (D - 1) := by ring
    rw [h1, abs_mul, abs_of_nonneg (mul_nonneg hL hF)]
  · rintro rfl
    simp [dash_gap]

/-- Claim C4, witness: a zero cycle length yields the dash pair `(0, 0)`. -/
theorem dash_gap_degenerate_witness :
    (0:ℚ) ≤ 0 ∧ (0:ℚ) ≤ 2 ∧ dash_gap 0 5 2 = (0, 0) :=
  ⟨le_refl 0, by norm_num, (dash_gap_degenerate 0 5 2 (le_refl 0) (by norm_num)).2 rfl⟩

/-- Claim C5: for `L ≥ 0`, `0 ≤ D ≤ 1`, `F > 0`, the dash pair is
`(L·D·F, |L·D·F − L·F|)` and on-length plus gap-length is exactly `L·F`
in exact rational arithmetic. -/
theorem dash_gap_sum (L D F : ℚ) (hL : 0 ≤ L) (hD0 : 0 ≤ D) (hD1 : D ≤ 1) (hF : 0 < F) :
    (dash_gap L D F).1 = L * D * F
  ∧ (dash_gap L D F).2 = |L * D * F - L * F|
  ∧ (dash_gap L D F).1 + (dash_gap L D F).2 = L * F := by
  refine ⟨rfl, rfl, ?_⟩
  have key : 0 ≤ L * F * (1 - D) := mul_nonneg (mul_nonneg hL hF.le) (by linarith)
  have hle : L * D * F ≤ L * F := by nlinarith [key]
  show L * D * F + |L * D * F - L * F| = L * F
  rw [abs_of_nonpos (by linarith)]
  ring

/-- Claim C5, witness: the spec's example `(L, D, F) = (1, 1/2, 2)` yields
`(on, gap) = (1, 1)` and `on + gap = 1·2`. -/
theorem dash_gap_sum_witness :
    (0:ℚ) ≤ 1 ∧ (0:ℚ) ≤ 1/2 ∧ (1:ℚ)/2 ≤ 1 ∧ (0:ℚ) < 2
  ∧ dash_gap 1 (1/2) 2 = (1, 1)
  ∧ (dash_gap 1 (1/2) 2).1 + (dash_gap 1 (1/2) 2).2 = 1 * 2 := by
  refine ⟨by norm_num, by norm_num, by norm_num, by norm_num, by norm_num [dash_gap], ?_⟩
  exact (dash_gap_sum 1 (1/2) 2 (by norm_num) (by norm_num) (by norm_num) (by norm_num)).2.2

/-! ## Claims C1, C3 and C6: assembly in `effect` -/

/-- Claim C1, counterexample: a path tree with exactly one leaf plus a
non-empty boundary in single-path mode hands two top-level nodes to the
renderer, yet no wrapping group is created (`wrapped = false`), because the
wrap test of line 333 runs on `path_tree` before the boundary is appended. -/
theorem effect_wrap_counterexample :
    effect (fun _ => []) (PTree.list [PTree.path [((0:ℚ), (0:ℚ))] 'm' false])
        [((1:ℚ), (1:ℚ))] true
      = Except.ok ⟨false, PTree.list [PTree.path [((0:ℚ), (0:ℚ))] 'm' false,
          PTree.path [((1:ℚ), (1:ℚ))] 'e' true]⟩ := rfl

/-- Claim C1, amended: the wrapping decision is made from the pattern's path
tree alone, before any boundary node is appended — an enclosing group is
created exactly when `path_tree` is a Python list whose length is not 1.
Consequently a single-element tree plus an appended boundary (two final
top-level nodes) is attached unwrapped, and an empty list tree is wrapped. -/
theorem effect_wrap_decision (sep : List Pt → List PTree) (tree : PTree)
    (eps : List Pt) (sp : Bool) (out : EffectOut)
    (h : effect sep tree eps sp = Except.ok out) :
    out.wrapped = true ↔ ∃ ch, tree = PTree.list ch ∧ ch.length ≠ 1 := by
  cases tree with
  | path pts st cl =>
    constructor
    · intro hw
      exfalso
      simp only [effect] at h
      split at h
      · injection h with h'
        rw [← h'] at hw
        simp at hw
      · exact Except.noConfusion h
    · rintro ⟨ch, hch, -⟩
      exact PTree.noConfusion hch
  | list ch =>
    have hw : out.wrapped = (ch.length != 1) := by
      simp only [effect] at h
      split at h
      · injection h with h'
        rw [← h']
      · split at h
        · injection h with h'
          rw [← h']
        · injection h with h'
          rw [← h']
    rw [hw]
    constructor
    · intro hne
      exact ⟨ch, rfl, by simpa using hne⟩
    · rintro ⟨ch', hch, hne⟩
      injection hch with h''
      subst h''
      simpa using hne

/-- Claim C1, witness: the amended statement applied to the counterexample
input (one leaf, one boundary point, single-path mode). -/
theorem effect_wrap_decision_witness :
    ((⟨false, PTree.list [PTree.path [((0:ℚ), (0:ℚ))] 'm' false,
          PTree.path [((1:ℚ), (1:ℚ))] 'e' true]⟩ : EffectOut).wrapped = true
      ↔ ∃ ch, PTree.list [PTree.path [((0:ℚ), (0:ℚ))] 'm' false] = PTree.list ch
          ∧ ch.length ≠ 1) :=
  effect_wrap_decision (fun _ => []) (PTree.list [PTree.path [((0:ℚ), (0:ℚ))] 'm' false])
    [((1:ℚ), (1:ℚ))] true
    ⟨false, PTree.list [PTree.path [((0:ℚ), (0:ℚ))] 'm' false,
        PTree.path [((1:ℚ), (1:ℚ))] 'e' true]⟩ rfl

/-- Claim C3, counterexample: with an empty path tree and an empty edge point
list, `effect` is not a document no-op — since `len([]) != 1`, a fresh (empty)
group element is still created and attached to the current layer
(`wrapped = true`). -/
theorem effect_empty_counterexample :
    effect (fun _ => []) (PTree.list []) [] true = Except.ok ⟨true, PTree.list []⟩ := rfl

/-- Claim C3, amended: for an empty path tree and empty edge point list no
error is raised and no drawable primitive is emitted, but one empty enclosing
group element is created and attached to the current layer (the wrap test
`len(path_tree) != 1` also fires for length 0). -/
theorem effect_empty_tree (sep : List Pt → List PTree) (sp : Bool) :
    effect sep (PTree.list []) [] sp = Except.ok ⟨true, PTree.list []⟩
  ∧ drawnLeaves (PTree.list []) = [] := ⟨rfl, rfl⟩

/-- Claim C6: with an empty edge point list the drawn tree is exactly
`path_tree`, nothing appended; with a non-empty edge point list in single-path
mode (and a list-shaped `path_tree`, as `self.path_tree + [edges]` requires),
exactly one closed `'e'`-class leaf holding the full ordered point list is
appended after the pattern's own children. -/
theorem effect_edge_modes (sep : List Pt → List PTree) (tree : PTree)
    (eps : List Pt) (sp : Bool) :
    (eps = [] → effect sep tree eps sp = Except.ok ⟨wrapFlag tree, tree⟩)
  ∧ (∀ ch, eps ≠ [] → tree = PTree.list ch →
      effect sep tree eps true
        = Except.ok ⟨wrapFlag tree, PTree.list (ch ++ [PTree.path eps 'e' true])⟩) := by
  constructor
  · rintro rfl
    cases tree <;> rfl
  · rintro ch hne rfl
    cases eps with
    | nil => exact absurd rfl hne
    | cons p ps => rfl

/-- Claim C6, witness: both branches at concrete inputs — an empty boundary
leaves the tree untouched, a one-point boundary appends one closed edge leaf. -/
theorem effect_edge_modes_witness :
    effect (fun _ => []) (PTree.list []) ([] : List Pt) true
      = Except.ok ⟨wrapFlag (PTree.list []), PTree.list []⟩
  ∧ effect (fun _ => []) (PTree.list []) [((0:ℚ), (0:ℚ))] true
      = Except.ok ⟨wrapFlag (PTree.list []),
          PTree.list [PTree.path [((0:ℚ), (0:ℚ))] 'e' true]⟩ :=
  ⟨(effect_edge_modes (fun _ => []) (PTree.list []) [] true).1 rfl,
   (effect_edge_modes (fun _ => []) (PTree.list []) [((0:ℚ), (0:ℚ))] true).2 []
     (by simp) rfl⟩

/-! ## Claims C7, C8 and C10: the style table -/

/-- Whether a stroke class has dash options at all (the vertex class has
none). -/
def dashCapable : SClass → Bool
  | SClass.p => false
  | _ => true

/-- The style one class compiles to, as a function of that class's raw
configuration only. -/
def compileClass (hasLong : Bool) (cfg : RawCfg) (dc : Bool) (F : ℚ) : PStyle :=
  { draw := cfg.draw
    stroke := get_color_string hasLong cfg.color
    fill := noneStr
    strokeWidth := cfg.width * F
    strokeDasharray :=
      if dc && cfg.dashesBool then some (dash_gap cfg.dashesLen cfg.dashesDuty F)
      else none }

/-- Factoring lemma: the entry of `styles_dict` for class `c` is a function of
`classConfig o c` (and the shared unit factor) alone. -/
theorem lookup_create_styles_dict (hasLong : Bool) (o : POptions) (F : ℚ) (cls : SClass) :
    (create_styles_dict hasLong o F).lookup (classKey cls)
      = some (compileClass hasLong (classConfig o cls) (dashCapable cls) F) := by
  cases cls <;> rfl

/-- Claim C7: two option assignments that agree on every stroke class except
one produce style tables whose entries for every other stroke class are
identical — per-class compilation is noninterfering. -/
theorem create_styles_dict_noninterference (hasLong : Bool) (o₁ o₂ : POptions) (F : ℚ)
    (k : SClass) (h : ∀ cls : SClass, cls ≠ k → classConfig o₁ cls = classConfig o₂ cls) :
    ∀ cls : SClass, cls ≠ k →
      (create_styles_dict hasLong o₁ F).lookup (classKey cls)
        = (create_styles_dict hasLong o₂ F).lookup (classKey cls) := by
  intro cls hcls
  rw [lookup_create_styles_dict, lookup_create_styles_dict, h cls hcls]

/-- The option record holding every default value declared in
`Pattern.__init__`. -/
def optA : POptions :=
  { mountain_stroke_color := 4278190335, mountain_stroke_width := 1/10,
    mountain_dashes_len := 1, mountain_dashes_duty := 1/2,
    mountain_dashes_bool := true, mountain_bool := true,
    valley_stroke_color := 65535, valley_stroke_width := 1/10,
    valley_dashes_len := 1, valley_dashes_duty := 1/4,
    valley_dashes_bool := true, valley_bool := true,
    edge_stroke_color := 255, edge_stroke_width := 1/10,
    edge_dashes_len := 1, edge_dashes_duty := 1/4,
    edge_dashes_bool := false, edge_bool := true, edge_single_path := true,
    universal_stroke_color := 4278255615, universal_stroke_width := 1/10,
    universal_dashes_len := 1, universal_dashes_duty := 1/4,
    universal_dashes_bool := false, universal_bool := true,
    semicrease_stroke_color := 4294902015, semicrease_stroke_width := 1/10,
    semicrease_dashes_len := 1, semicrease_dashes_duty := 1/4,
    semicrease_dashes_bool := false, semicrease_bool := true,
    cut_stroke_color := 16711935, cut_stroke_width := 1/10,
    cut_dashes_len := 1, cut_dashes_duty := 1/4,
    cut_dashes_bool := false, cut_bool := true,
    vertex_stroke_color := 255, vertex_stroke_width := 1/10,
    vertex_radius := 1/10, vertex_bool := true }

/-- `optA` with the mountain class's colour and dashed flag changed. -/
def optB : POptions :=
  { optA with mountain_stroke_color := 65280, mountain_dashes_bool := false }

/-- Claim C7, witness: changing only the mountain configuration leaves the
valley entry unchanged. -/
theorem create_styles_dict_noninterference_witness :
    (∀ cls : SClass, cls ≠ SClass.m → classConfig optA cls = classConfig optB cls)
  ∧ (create_styles_dict true optA 1).lookup (classKey SClass.v)
      = (create_styles_dict true optB 1).lookup (classKey SClass.v) := by
  have hpre : ∀ cls : SClass, cls ≠ SClass.m → classConfig optA cls = classConfig optB cls := by
    intro cls hcls
    cases cls
    · exact absurd rfl hcls
    all_goals rfl
  exact ⟨hpre,
    create_styles_dict_noninterference true optA optB 1 SClass.m hpre SClass.v (by decide)⟩

/-- Claim C8: the style table has exactly the seven keys
`m, v, u, s, c, e, p` in order (one entry per stroke class, draw flag
notwithstanding), and every class's entry has fill `"none"` and stroke width
equal to its raw width times the single unit factor of the invocation. -/
theorem create_styles_dict_complete (hasLong : Bool) (o : POptions) (F : ℚ) :
    ((create_styles_dict hasLong o F).map Prod.fst = ['m', 'v', 'u', 's', 'c', 'e', 'p'])
  ∧ ∀ cls : SClass, ∃ st : PStyle,
      (create_styles_dict hasLong o F).lookup (classKey cls) = some st
        ∧ st.fill = noneStr
        ∧ st.strokeWidth = (classConfig o cls).width * F := by
  refine ⟨rfl, ?_⟩
  intro cls
  exact ⟨_, lookup_create_styles_dict hasLong o F cls, rfl, rfl⟩

/-- Claim C10: the vertex entry (key `'p'`) never carries a dash
specification, whatever the other classes' options are. -/
theorem vertex_style_no_dasharray (hasLong : Bool) (o : POptions) (F : ℚ) :
    ∃ st : PStyle, (create_styles_dict hasLong o F).lookup 'p' = some st
      ∧ st.strokeDasharray = none :=
  ⟨_, lookup_create_styles_dict hasLong o F SClass.p, rfl⟩

/-! ## Claim C9: the unit-conversion fallback chain -/

/-- Claim C9, counterexample: if the first path fails and the second fails
with something other than an `AttributeError` (for instance a `TypeError`
from an incompatible signature), `calc_unit_factor` propagates that error and
never consults the third path, even though the third path would succeed
(here it returns `5` on every argument). -/
theorem calc_unit_factor_counterexample :
    calc_unit_factor (fun _ => Except.error PyErr.typeError)
        (fun _ => Except.error PyErr.typeError) (fun _ => Except.ok 5) "mm"
      = Except.error PyErr.typeError
  ∧ (fun _ : String => (Except.ok (5:ℚ) : Except PyErr ℚ)) (unitArg "mm")
      = Except.ok (5:ℚ) :=
  ⟨rfl, rfl⟩

/-- Claim C9, amended: `calc_unit_factor` passes `"1.0"` concatenated with the
unit string to `self.svg.unittouu`, then on any failure to `inkex.unittouu`,
and returns the first success — but the instance-level `self.unittouu` is
consulted only when `inkex.unittouu` fails with an `AttributeError`; any other
failure of the second path propagates as the result. -/
theorem calc_unit_factor_fallback (svgU inkexU selfU : String → Except PyErr ℚ)
    (units : String) :
    (∀ v, svgU (unitArg units) = Except.ok v →
        calc_unit_factor svgU inkexU selfU units = Except.ok v)
  ∧ (∀ e v, svgU (unitArg units) = Except.error e → inkexU (unitArg units) = Except.ok v →
        calc_unit_factor svgU inkexU selfU units = Except.ok v)
  ∧ (∀ e, svgU (unitArg units) = Except.error e →
        inkexU (unitArg units) = Except.error PyErr.attributeError →
        calc_unit_factor svgU inkexU selfU units = selfU (unitArg units))
  ∧ (∀ e e', svgU (unitArg units) = Except.error e →
        inkexU (unitArg units) = Except.error e' → e' ≠ PyErr.attributeError →
        calc_unit_factor svgU inkexU selfU units = Except.error e') := by
  refine ⟨?_, ?_, ?_, ?_⟩
  · intro v hv
    simp [calc_unit_factor, hv]
  · intro e v he hv
    simp [calc_unit_factor, he, hv]
  · intro e he hi
    simp [calc_unit_factor, he, hi]
  · intro e e' he hi hne
    simp [calc_unit_factor, he, hi, hne]

/-- Claim C9, witness: first path raises `TypeError`, second raises
`AttributeError`, so the third path's value `7` is returned. -/
theorem calc_unit_factor_fallback_witness :
    calc_unit_factor (fun _ => Except.error PyErr.typeError)
        (fun _ => Except.error PyErr.attributeError) (fun _ => Except.ok 7) "mm"
      = Except.ok 7 := by
  have h := (calc_unit_factor_fallback (fun _ => Except.error PyErr.typeError)
      (fun _ => Except.error PyErr.attributeError) (fun _ => Except.ok 7) "mm").2.2.1
  exact (h PyErr.typeError rfl rfl).trans rfl

end Origami
